import Mathlib

set_option autoImplicit false

/-
  Shallow embedding of the shumway metrics library (src/shumway/init module).

  Python dicts with string keys are modelled as insertion-ordered association
  lists; dict assignment overwrites the first binding of the key in place and
  otherwise appends, matching CPython insertion-order semantics.  Numeric
  values are modelled as rationals, and a Python value that may be None is an
  Option.  Fallible constructors and methods return Except.
-/

namespace Shumway

/-- Insertion-ordered association list with string keys, the model of a
Python dict (for attribute maps) and of the relay registry. -/
abbrev AList (α : Type) := List (String × α)

/-- Assignment d[k] = v on a Python dict: overwrite the first binding of k
in place, otherwise append the new binding at the end. -/
def alistSet {α : Type} : AList α → String → α → AList α
  | [], k, v => [(k, v)]
  | (k0, v0) :: rest, k, v =>
      if k0 = k then (k0, v) :: rest else (k0, v0) :: alistSet rest k v

/-- Lookup d[k] on a Python dict: the first binding of k, if any. -/
def alistLookup {α : Type} : AList α → String → Option α
  | [], _ => none
  | (k0, v0) :: rest, k => if k0 = k then some v0 else alistLookup rest k

/-- The last binding of k in an association list.  When several bindings of
one key are applied by an update, the last one wins; on a genuine Python
dict (no duplicate keys) this agrees with alistLookup. -/
def alistLast {α : Type} : AList α → String → Option α
  | [], _ => none
  | (k0, v0) :: rest, k =>
      match alistLast rest k with
      | some v => some v
      | none => if k0 = k then some v0 else none

/-- String-valued attribute map, the model of the attribute, resource and
default dicts of the library. -/
abbrev Dict := AList String

/-- Python d.update(u): apply every binding of u to d, in order. -/
def dictUpdate (d u : Dict) : Dict :=
  u.foldl (fun acc kv => alistSet acc kv.1 kv.2) d

/-- Python str.startswith(pre), on the character data of the strings. -/
def startswith (s pre : String) : Bool :=
  List.isPrefixOf pre.data s.data

/-- FFWD_IP constant of the module. -/
def FFWD_IP : String := "127.0.0.1"

/-- FFWD_PORT constant of the module. -/
def FFWD_PORT : Nat := 19000

/-- GIGA_UNIT constant of the module, 1E9. -/
def GIGA_UNIT : ℚ := 1000000000

/-- The dict built by Meter.as_dict: the wire payload of one metric.
The value field is an Option because a Timer holds None until measured. -/
structure MetricDict where
  key : String
  attributes : Dict
  value : Option ℚ
  type : String
  tags : List String
  resources : Dict
deriving DecidableEq, Repr

/-- State of a Meter object: value, key, and the three containers set up by
the constructor. -/
structure Meter where
  value : Option ℚ
  key : String
  attributes : Dict
  resources : Dict
  tags : List String
deriving DecidableEq, Repr

/-- Meter constructor: attributes start as a dict holding only the key
"what" bound to the metric name, then update with the caller dict when one
is given; resources start empty and update with the caller dict; tags
default to the empty list; value defaults to 0. -/
def Meter.init (what key : String) (attributes resources : Option Dict)
    (tags : Option (List String)) (value : Option ℚ) : Meter :=
  { value := value
    key := key
    attributes :=
      match attributes with
      | none => [("what", what)]
      | some a => dictUpdate [("what", what)] a
    resources :=
      match resources with
      | none => []
      | some r => dictUpdate [] r
    tags := tags.getD [] }

/-- Meter.update: unconditional overwrite of the value. -/
def Meter.update (m : Meter) (v : Option ℚ) : Meter := { m with value := v }

/-- Meter.as_dict: the canonical wire form, with type fixed to "metric". -/
def Meter.as_dict (m : Meter) : MetricDict :=
  { key := m.key
    attributes := m.attributes
    value := m.value
    type := "metric"
    tags := m.tags
    resources := m.resources }

/-- Counter.incr: self.update(self.value + value).  On a None value Python
would raise a TypeError; the model propagates none. -/
def Counter.incr (c : Meter) (amount : ℚ) : Meter :=
  c.update (c.value.map (fun v => v + amount))

/-- State of a Timer object: the underlying Meter plus the private start
instant recorded on scope entry. -/
structure Timer where
  meter : Meter
  start : Option ℚ
deriving DecidableEq, Repr

/-- Timer constructor: the Meter constructor runs first, then the
attributes are updated with a binding of "unit" to "ns", start is unset and
the value is overwritten to None. -/
def Timer.init (what key : String) (attributes resources : Option Dict)
    (tags : Option (List String)) : Timer :=
  let m := Meter.init what key attributes resources tags (some 0)
  let m := { m with attributes := dictUpdate m.attributes [("unit", "ns")] }
  { meter := { m with value := none }
    start := none }

/-- Timer scope entry: record the clock reading as the start instant. -/
def Timer.enter (t : Timer) (now : ℚ) : Timer := { t with start := some now }

/-- Timer scope exit: update the value to the elapsed time scaled by
GIGA_UNIT.  An unset start would raise a TypeError in Python; the model
propagates none.  The method returns None, so it never suppresses an
exception of the scoped body. -/
def Timer.exit (t : Timer) (now : ℚ) : Timer :=
  { t with meter := t.meter.update (t.start.map (fun s => (now - s) * GIGA_UNIT)) }

/-- Outcome of the body of a with-block: normal completion, or an exception
identified by a message. -/
inductive BodyOutcome
  | ok
  | exc (e : String)
deriving DecidableEq, Repr

/-- One run of `with timer: body` where the clock reads t0 on entry and t1
on exit.  Scope exit runs unconditionally, and because Timer.exit returns a
falsy value the body outcome (normal or exceptional) is passed through
unchanged to the caller. -/
def Timer.withScope (t : Timer) (t0 t1 : ℚ) (body : BodyOutcome) :
    Timer × BodyOutcome :=
  let entered := t.enter t0
  (entered.exit t1, body)

/-- A metric stored in the relay registry: the incr path stores Counters
(plain Meters with the incr method) and the timer path stores Timers. -/
inductive RMetric
  | counter (c : Meter)
  | timer (t : Timer)
deriving DecidableEq, Repr

/-- The Meter underlying a registered metric. -/
def RMetric.toMeter : RMetric → Meter
  | .counter c => c
  | .timer t => t.meter

/-- The wire payload of a registered metric, via Meter.as_dict. -/
def RMetric.as_dict (m : RMetric) : MetricDict := m.toMeter.as_dict

/-- The relay registry, the private metrics dict of MetricRelay. -/
abbrev Registry := AList RMetric

/-- State of a _HTTPSender object: the URL resolved once at construction. -/
structure HTTPSender where
  ffwd_url : String
deriving DecidableEq, Repr

/-- _HTTPSender constructor: when the host does not start with the literal
"http" a scheme is prepended (https for port 443, else http); the URL is
host, a colon, the port, and the path when one is given. -/
def HTTPSender.init (ffwd_host : String) (ffwd_port : Nat)
    (ffwd_path : Option String) : HTTPSender :=
  let host :=
    if (!startswith ffwd_host "http") && (ffwd_port == 443) then
      "https://" ++ ffwd_host
    else if !startswith ffwd_host "http" then
      "http://" ++ ffwd_host
    else ffwd_host
  let url := host ++ ":" ++ toString ffwd_port
  { ffwd_url :=
      match ffwd_path with
      | some p => url ++ p
      | none => url }

/-- One point of the HTTP batch body, built by
_HTTPSender._convert_metric_to_http_payload: the attributes of the wire
payload are renamed to tags and the resources to resource; the timestamp is
the epoch-millisecond clock reading at send time. -/
structure HTTPPoint where
  key : String
  tags : Dict
  resource : Dict
  value : Option ℚ
  timestamp : Int
deriving DecidableEq, Repr

/-- _convert_metric_to_http_payload on one registered metric. -/
def HTTPSender.convert_metric_to_http_payload (m : RMetric) (now_ms : Int) :
    HTTPPoint :=
  let d := m.as_dict
  { key := d.key
    tags := d.attributes
    resource := d.resources
    value := d.value
    timestamp := now_ms }

/-- requests.Response.raise_for_status raises an HTTPError exactly for the
client-error and server-error status codes, 400 through 599. -/
def raise_for_status (status : Nat) : Bool :=
  decide (400 ≤ status ∧ status ≤ 599)

/-- _HTTPSender.send: convert every registered metric to a batch point,
POST the batch to the resolved URL once, then raise_for_status on the
response.  The epoch-millisecond clock reading and the response status are
inputs of the model; on success the result carries the destination URL and
the posted points, and there is no retry. -/
def HTTPSender.send (s : HTTPSender) (metrics : Registry) (now_ms : Int)
    (status : Nat) : Except Nat (String × List HTTPPoint) :=
  let pts := metrics.map
    (fun kv => HTTPSender.convert_metric_to_http_payload kv.2 now_ms)
  if raise_for_status status then Except.error status
  else Except.ok (s.ffwd_url, pts)

/-- The transport held by a relay: a UDP sender with its destination
address, or an HTTP sender with its resolved URL. -/
inductive Sender
  | udp (host : String) (port : Nat)
  | http (s : HTTPSender)
deriving DecidableEq, Repr

/-- Errors a MetricRelay constructor call can raise: the ValueError of the
host check, or the AttributeError hit when use_http is set with no
ffwd_host (None has no startswith method). -/
inductive RelayError
  | valueError (msg : String)
  | attributeError
deriving DecidableEq, Repr

/-- State of a MetricRelay object. -/
structure MetricRelay where
  metrics : Registry
  default_key : String
  default_attributes : Option Dict
  default_resources : Option Dict
  sender : Sender
deriving DecidableEq, Repr

/-- MetricRelay constructor: the mutual-exclusion check on ffwd_host and
ffwd_ip runs first and raises before the registry, the defaults or any
sender is built; then the UDP host falls back from ffwd_host to ffwd_ip to
FFWD_IP, the registry starts empty, the defaults are deep-copied (identity
in a pure model), and the sender is the HTTP one when use_http is set and
the UDP one otherwise. -/
def MetricRelay.init (default_key : String) (ffwd_host ffwd_ip : Option String)
    (ffwd_port : Nat) (ffwd_path : Option String)
    (default_attributes default_resources : Option Dict) (use_http : Bool) :
    Except RelayError MetricRelay :=
  if ffwd_host.isSome && ffwd_ip.isSome then
    Except.error (RelayError.valueError
      "Both ffwd_host and ffwd_ip are set, but only one of them is allowed to be set at a time")
  else
    let host :=
      match ffwd_host with
      | some h => h
      | none =>
        match ffwd_ip with
        | some i => i
        | none => FFWD_IP
    let sender : Except RelayError Sender :=
      if use_http then
        match ffwd_host with
        | some h => Except.ok (Sender.http (HTTPSender.init h ffwd_port ffwd_path))
        | none => Except.error RelayError.attributeError
      else Except.ok (Sender.udp host ffwd_port)
    sender.map (fun s =>
      { metrics := []
        default_key := default_key
        default_attributes := default_attributes
        default_resources := default_resources
        sender := s })

/-- MetricRelay.flush_single: dispatch the wire payload of one metric,
bypassing the registry; neither the relay nor the metric changes. -/
def MetricRelay.flush_single (r : MetricRelay) (m : Meter) :
    MetricRelay × MetricDict :=
  (r, m.as_dict)

/-- MetricRelay.emit: build a transient Meter from the metric name, the
default key and the caller containers, and dispatch it at once through
flush_single; it is never registered. -/
def MetricRelay.emit (r : MetricRelay) (metric : String) (value : ℚ)
    (attributes resources : Option Dict) (tags : Option (List String)) :
    MetricRelay × MetricDict :=
  let one_time_metric :=
    Meter.init metric r.default_key attributes resources tags (some value)
  r.flush_single one_time_metric

/-- MetricRelay.incr: reuse the metric registered under the name, or create
a Counter seeded with the default key, attributes and resources and
register it under the name; then increment it.  A registered Timer has no
incr method, so Python raises an AttributeError there. -/
def MetricRelay.incr (r : MetricRelay) (metric : String) (value : ℚ) :
    Except String MetricRelay :=
  match alistLookup r.metrics metric with
  | some (RMetric.counter c) =>
      let ms := alistSet r.metrics metric (RMetric.counter (Counter.incr c value))
      Except.ok { r with metrics := ms }
  | some (RMetric.timer _) =>
      Except.error "AttributeError: Timer object has no attribute incr"
  | none =>
      let c := Meter.init metric r.default_key r.default_attributes
        r.default_resources none (some 0)
      let ms := alistSet r.metrics metric (RMetric.counter (Counter.incr c value))
      Except.ok { r with metrics := ms }

/-- MetricRelay.timer: reuse the metric registered under the qualified name
(the literal "timer-" followed by the metric name), or create a Timer
seeded with the default key, attributes and resources, register it under
the qualified name, and return it. -/
def MetricRelay.timer (r : MetricRelay) (metric : String) :
    MetricRelay × RMetric :=
  let timer_metric := "timer-" ++ metric
  match alistLookup r.metrics timer_metric with
  | some m => (r, m)
  | none =>
      let t := Timer.init metric r.default_key r.default_attributes
        r.default_resources none
      ({ r with metrics := alistSet r.metrics timer_metric (RMetric.timer t) },
       RMetric.timer t)

/-- MetricRelay.set_counter: register the given metric under the name. -/
def MetricRelay.set_counter (r : MetricRelay) (metric : String)
    (counter : RMetric) : MetricRelay :=
  { r with metrics := alistSet r.metrics metric counter }

/-- MetricRelay.set_timer: register the given metric under the qualified
timer name. -/
def MetricRelay.set_timer (r : MetricRelay) (metric : String)
    (timer : RMetric) : MetricRelay :=
  { r with metrics := alistSet r.metrics ("timer-" ++ metric) timer }

/-- MetricRelay.flush: hand every registered metric to the sender, which
serializes each one from as_dict and assigns nothing; the relay is returned
alongside the dispatched wire payloads, one per registered metric. -/
def MetricRelay.flush (r : MetricRelay) : MetricRelay × List MetricDict :=
  (r, r.metrics.map (fun kv => RMetric.as_dict kv.2))

/-- The in operator on a relay: membership of the name in the registry. -/
def MetricRelay.contains (r : MetricRelay) (metric : String) : Bool :=
  (alistLookup r.metrics metric).isSome

/-- True when a constructor call raised the ValueError of the host check. -/
def isValueError : Except RelayError MetricRelay → Bool
  | Except.error (RelayError.valueError _) => true
  | _ => false

/-- The attributes of the metric registered under a key, if any. -/
def storedAttributes (r : MetricRelay) (k : String) : Option Dict :=
  (alistLookup r.metrics k).map (fun m => m.toMeter.attributes)

/-- Spec reading of a scheme prefix on a host string: the host begins with
an explicit URL scheme, not merely with the four characters of http. -/
def hasUrlScheme (host : String) : Bool :=
  startswith host "http://" || startswith host "https://"

/-- Lookup after assignment on an association list: the assigned key now
maps to the new value and every other key is untouched. -/
theorem alistLookup_alistSet {α : Type} (d : AList α) (k k' : String) (v : α) :
    alistLookup (alistSet d k v) k' = if k' = k then some v else alistLookup d k' := by
  induction d with
  | nil =>
      by_cases h : k' = k <;> simp [alistSet, alistLookup, h] <;>
        exact fun h2 => absurd h2.symm h
  | cons hd tl ih =>
      obtain ⟨k0, v0⟩ := hd
      by_cases h0 : k0 = k <;> by_cases h1 : k0 = k' <;> by_cases h2 : k' = k <;>
        simp_all [alistSet, alistLookup]

/-- Lookup after a dict update: the last binding the update carries for the
key wins, and a key the update does not bind keeps its old value. -/
theorem alistLookup_dictUpdate (d u : Dict) (k : String) :
    alistLookup (dictUpdate d u) k =
      match alistLast u k with
      | some v => some v
      | none => alistLookup d k := by
  induction u generalizing d with
  | nil => simp [dictUpdate, alistLast]
  | cons hd tl ih =>
      obtain ⟨k0, v0⟩ := hd
      show alistLookup (dictUpdate (alistSet d k0 v0) tl) k = _
      rw [ih]
      cases htl : alistLast tl k with
      | some v => simp [alistLast, htl]
      | none =>
          by_cases h0 : k0 = k <;>
            simp [alistLast, htl, alistLookup_alistSet, h0] <;>
            simp [Ne.symm h0]

/-- The qualified timer key is never the bare metric name: prepending the
timer literal strictly lengthens the string. -/
theorem timerKey_ne (s : String) : ("timer-" ++ s) ≠ s := by
  intro h
  have hlen := congrArg String.length h
  rw [String.length_append] at hlen
  have h6 : ("timer-" : String).length = 6 := rfl
  omega

/-- C1 counterexample: constructing a Meter named test with a caller
attributes dict binding the key what to other puts other, not test, under
what in the wire payload, so the caller attributes dict does override the
constructor metric name through the general attributes merge. -/
theorem c1_counterexample :
    alistLookup ((Meter.init "test" "key" (some [("what", "other")]) none none
        (some 0)).as_dict).attributes "what" = some "other"
    ∧ ("other" : String) ≠ "test" :=
  ⟨rfl, by decide⟩

/-- C1 (amended): the what key of the merged attributes in the wire payload
equals the constructor metric name exactly when the supplied attributes
dict (the caller dict, or the relay defaults when the relay passes them as
the attributes argument) carries no binding of what — the constructor value
is only a default and the attributes merge can override it. -/
theorem c1_what_is_default_only (what key : String) (attrs : Dict)
    (res : Option Dict) (tags : Option (List String)) (v : Option ℚ) :
    alistLookup ((Meter.init what key (some attrs) res tags v).as_dict).attributes "what"
      = some ((alistLast attrs "what").getD what)
    ∧ alistLookup ((Meter.init what key none res tags v).as_dict).attributes "what"
      = some what := by
  constructor
  · show alistLookup (dictUpdate [("what", what)] attrs) "what" = _
    rw [alistLookup_dictUpdate]
    cases h : alistLast attrs "what" <;> simp [alistLookup]
  · rfl

/-- C3: for a timer scope with clock readings t0 on entry and t1 on exit,
the value after the scope equals (t1 - t0) scaled by GIGA_UNIT exactly, and
the outcome of the scoped body (normal or exceptional) passes through the
scope exit unchanged, so an exception keeps propagating. -/
theorem c3_timer_scope (t : Timer) (t0 t1 : ℚ) (body : BodyOutcome)
    (h : t0 ≤ t1) :
    (t.withScope t0 t1 body).1.meter.value = some ((t1 - t0) * GIGA_UNIT)
    ∧ (t.withScope t0 t1 body).2 = body :=
  ⟨rfl, rfl⟩

/-- C3 witness: a concrete scope over clock readings 0 and 1 records the
value GIGA_UNIT and passes the normal outcome through. -/
theorem c3_timer_scope_witness :
    ((0 : ℚ) ≤ 1)
    ∧ (((Timer.init "timer" "key" none none none).withScope 0 1
          BodyOutcome.ok).1.meter.value = some (((1 : ℚ) - 0) * GIGA_UNIT)
       ∧ ((Timer.init "timer" "key" none none none).withScope 0 1
          BodyOutcome.ok).2 = BodyOutcome.ok) :=
  ⟨by norm_num, c3_timer_scope (Timer.init "timer" "key" none none none) 0 1
    BodyOutcome.ok (by norm_num)⟩

/-- C4: folding any finite list of increments over a Counter whose value is
v0 leaves the value at v0 plus the sum of the increments. -/
theorem c4_counter_incr_sum (c : Meter) (v0 : ℚ) (amounts : List ℚ)
    (h : c.value = some v0) :
    (amounts.foldl (fun m a => Counter.incr m a) c).value
      = some (v0 + amounts.sum) := by
  induction amounts generalizing c v0 with
  | nil => simp [h]
  | cons a rest ih =>
      have h2 : (Counter.incr c a).value = some (v0 + a) := by
        simp [Counter.incr, Meter.update, h]
      simp only [List.foldl_cons, List.sum_cons]
      rw [ih (Counter.incr c a) (v0 + a) h2, ← add_assoc]

/-- C4 witness: a fresh Counter starts at 0 and two unit increments leave
its value at the sum of the list of increments. -/
theorem c4_counter_incr_sum_witness :
    (Meter.init "test" "key" none none none (some 0)).value = some 0
    ∧ (([1, 1] : List ℚ).foldl (fun m a => Counter.incr m a)
        (Meter.init "test" "key" none none none (some 0))).value
      = some (0 + ([1, 1] : List ℚ).sum) :=
  ⟨rfl, c4_counter_incr_sum (Meter.init "test" "key" none none none (some 0))
    0 [1, 1] rfl⟩

/-- C5: flush leaves the relay, its registry and every registered value
unchanged, and a second flush with no intervening update dispatches the
same wire payloads, with the same values, again. -/
theorem c5_flush_preserves_state (r : MetricRelay) :
    (r.flush).1 = r
    ∧ ((r.flush).1.flush).2 = (r.flush).2
    ∧ ∀ k : String, alistLookup ((r.flush).1.metrics) k = alistLookup r.metrics k :=
  ⟨rfl, rfl, fun _ => rfl⟩

/-- C7 counterexample: a Timer constructed with attributes, resources and
tags omitted has None as the value field of its wire payload, before any
measurement completes — a None value does appear in the wire payload. -/
theorem c7_counterexample :
    ((Timer.init "timer" "key" none none none).meter.as_dict).value = none :=
  rfl

/-- C7 (amended): with attributes, resources and tags omitted, the wire
payload has an empty resources mapping, an empty tags sequence and only the
constructor-set attribute keys, and the containers never carry None; but
the value field of an unmeasured Timer is None (a Meter or Counter defaults
to 0), so None can appear in the payload as the value. -/
theorem c7_omitted_containers (what key : String) :
    (Meter.init what key none none none (some 0)).as_dict
      = { key := key
          attributes := [("what", what)]
          value := some 0
          type := "metric"
          tags := []
          resources := [] }
    ∧ (Timer.init what key none none none).meter.as_dict
      = { key := key
          attributes := [("what", what), ("unit", "ns")]
          value := none
          type := "metric"
          tags := []
          resources := [] } :=
  ⟨rfl, rfl⟩

/-- C2 counterexample: on a freshly constructed relay, after timer on the
name x the containment check for x is still false — only the qualified key
timer-x is registered — so timer does not make the bare name contained. -/
theorem c2_counterexample :
    ((MetricRelay.init "key" none none 19000 none none none false).map
      (fun r => ((r.timer "x").1.contains "x", (r.timer "x").1.contains "timer-x")))
    = Except.ok (false, true) :=
  rfl

/-- C2 (amended): on a freshly constructed relay no name is contained;
incr and set_counter on a name make that name contained; timer on a name
registers only the qualified key, the timer literal followed by the name,
and leaves containment of the bare name unchanged. -/
theorem c2_containment (name : String) :
    (∀ (dk : String) (fh fi : Option String) (port : Nat) (pp : Option String)
       (da dr : Option Dict) (uh : Bool) (r : MetricRelay),
       MetricRelay.init dk fh fi port pp da dr uh = Except.ok r →
       r.contains name = false)
    ∧ (∀ (r r2 : MetricRelay) (v : ℚ),
         r.incr name v = Except.ok r2 → r2.contains name = true)
    ∧ (∀ (r : MetricRelay) (c : RMetric),
         (r.set_counter name c).contains name = true)
    ∧ (∀ r : MetricRelay,
         (r.timer name).1.contains ("timer-" ++ name) = true
         ∧ (r.timer name).1.contains name = r.contains name) := by
  refine ⟨?_, ?_, ?_, ?_⟩
  · intro dk fh fi port pp da dr uh r h
    rcases fh with _ | a <;> rcases fi with _ | b <;> cases uh <;>
      simp [MetricRelay.init, Except.map] at h <;>
      simp [← h, MetricRelay.contains, alistLookup]
  · intro r r2 v h
    unfold MetricRelay.incr at h
    cases hl : alistLookup r.metrics name with
    | some m =>
        cases m with
        | counter c =>
            rw [hl] at h
            simp only [Except.ok.injEq] at h
            simp [← h, MetricRelay.contains, alistLookup_alistSet]
        | timer t =>
            rw [hl] at h
            simp at h
    | none =>
        rw [hl] at h
        simp only [Except.ok.injEq] at h
        simp [← h, MetricRelay.contains, alistLookup_alistSet]
  · intro r c
    simp [MetricRelay.set_counter, MetricRelay.contains, alistLookup_alistSet]
  · intro r
    unfold MetricRelay.timer
    cases hl : alistLookup r.metrics ("timer-" ++ name) with
    | some m =>
        simp [MetricRelay.contains, hl]
    | none =>
        constructor
        · simp [MetricRelay.contains, hl, alistLookup_alistSet]
        · simp [MetricRelay.contains, hl, alistLookup_alistSet,
            Ne.symm (timerKey_ne name)]

/-- Concrete freshly constructed relay used to witness the containment
facts. -/
def sampleRelay : MetricRelay :=
  { metrics := []
    default_key := "key"
    default_attributes := none
    default_resources := none
    sender := Sender.udp FFWD_IP 19000 }

/-- The sample relay after one incr of the name x by one. -/
def sampleRelayIncr : MetricRelay :=
  { sampleRelay with metrics :=
      [("x", RMetric.counter
        (Counter.incr (Meter.init "x" "key" none none none (some 0)) 1))] }

/-- C2 witness: the containment facts evaluated on the sample relay. -/
theorem c2_containment_witness :
    sampleRelay.contains "x" = false
    ∧ sampleRelayIncr.contains "x" = true
    ∧ (sampleRelay.set_counter "x"
        (RMetric.counter (Meter.init "x" "key" none none none (some 0)))).contains "x" = true
    ∧ (sampleRelay.timer "x").1.contains ("timer-" ++ "x") = true :=
  ⟨(c2_containment "x").1 "key" none none 19000 none none none false sampleRelay rfl,
   (c2_containment "x").2.1 sampleRelay sampleRelayIncr 1 rfl,
   (c2_containment "x").2.2.1 sampleRelay _,
   ((c2_containment "x").2.2.2 sampleRelay).1⟩

/-- C6: a relay constructor call raises the ValueError of the host check
exactly when both ffwd_host and ffwd_ip are supplied; the check runs before
the registry, the metrics or any sender is built (an erroneous call
produces no relay value at all), and a call with at most one of the two
supplied never raises this error. -/
theorem c6_config_error_iff (dk : String) (fh fi : Option String) (port : Nat)
    (pp : Option String) (da dr : Option Dict) (uh : Bool) :
    isValueError (MetricRelay.init dk fh fi port pp da dr uh)
      = (fh.isSome && fi.isSome) := by
  rcases fh with _ | a <;> rcases fi with _ | b <;> cases uh <;>
    simp [MetricRelay.init, isValueError, Except.map]

/-- C8 counterexample: a 304 response status is not a 2xx success, yet the
HTTP send does not raise on it — requests only raises for the 4xx and 5xx
ranges — refuting that any non-2xx status raises. -/
theorem c8_counterexample :
    ¬ (200 ≤ 304 ∧ 304 < 300)
    ∧ (HTTPSender.init "metrics.com" 8080 none).send [] 0 304
      = Except.ok ("http://metrics.com:8080", []) :=
  ⟨by omega, rfl⟩

/-- C8 (amended): an HTTP send raises, synchronously and with no retry,
exactly when the response status lies in the client-error or server-error
range 400 through 599; any 2xx status succeeds, but so does any 1xx or 3xx
status, and on success the batch is posted to the resolved URL once. -/
theorem c8_http_raise_iff (s : HTTPSender) (metrics : Registry)
    (now_ms : Int) (status : Nat) :
    (s.send metrics now_ms status = Except.error status
      ↔ (400 ≤ status ∧ status ≤ 599))
    ∧ (s.send metrics now_ms status
        = Except.ok (s.ffwd_url, metrics.map
            (fun kv => HTTPSender.convert_metric_to_http_payload kv.2 now_ms))
      ↔ (status < 400 ∨ 600 ≤ status)) := by
  by_cases h : 400 ≤ status ∧ status ≤ 599 <;>
    constructor <;>
    simp [HTTPSender.send, raise_for_status, h] <;>
    omega

/-- C9 counterexample: the host httpd.example.com carries no URL scheme,
yet the constructed URL gets no inferred scheme, because the code tests
only whether the host starts with the four characters http. -/
theorem c9_counterexample :
    hasUrlScheme "httpd.example.com" = false
    ∧ (HTTPSender.init "httpd.example.com" 19000 none).ffwd_url
      = "httpd.example.com:19000"
    ∧ ("httpd.example.com:19000" : String) ≠ "http://httpd.example.com:19000" :=
  ⟨rfl, rfl, by decide⟩

/-- C9 (amended): the URL is formed once at construction as the host
followed by a colon, the port and the optional path, where the host is kept
unchanged whenever it starts with the literal http (even with no actual
scheme, as for httpd.example.com) and otherwise gets https prepended when
the port equals 443 and http prepended otherwise. -/
theorem c9_url_formation (host : String) (port : Nat) (path : Option String) :
    (HTTPSender.init host port path).ffwd_url
      = (if startswith host "http" then host
         else if port = 443 then "https://" ++ host
         else "http://" ++ host) ++ ":" ++ toString port ++ path.getD "" := by
  unfold HTTPSender.init
  cases hs : startswith host "http" <;> cases path <;>
    by_cases hp : port = 443 <;>
    simp [hs, hp, String.append_assoc]

/-- C10: emit builds its transient payload from only the default key of the
relay and the caller containers — two relays that agree on the default key
but differ arbitrarily in default attributes and resources emit identical
payloads — while incr on a fresh name does merge the default attributes
into the registered counter. -/
theorem c10_emit_ignores_defaults
    (mets : Registry) (dk : String) (da dr da2 dr2 : Option Dict)
    (s s2 : Sender) (name : String) (v v2 : ℚ) (a res : Option Dict)
    (tg : Option (List String)) (D : Dict) :
    (MetricRelay.emit
        { metrics := mets
          default_key := dk
          default_attributes := da
          default_resources := dr
          sender := s } name v a res tg).2
      = (MetricRelay.emit
          { metrics := mets
            default_key := dk
            default_attributes := da2
            default_resources := dr2
            sender := s2 } name v a res tg).2
    ∧ (MetricRelay.incr
          { metrics := []
            default_key := dk
            default_attributes := some D
            default_resources := dr
            sender := s } name v2).map
        (fun r2 => storedAttributes r2 name)
      = Except.ok (some (dictUpdate [("what", name)] D)) := by
  constructor
  · rfl
  · simp [MetricRelay.incr, alistLookup, storedAttributes, alistSet,
      Meter.init, Counter.incr, Meter.update, Except.map, RMetric.toMeter]

end Shumway
